import Mathlib

/-!
Shallow embedding of the ZayDroids asteroids game.

The model follows src/main.cpp (the variant src/unnamed/part_000 agrees on
all modelled behavior; the two differences that matter are noted inline).
Scalar quantities are idealized as real numbers.  The global random number
generator is modelled as an oracle of typed draw streams indexed by a
counter rngK that is threaded through the state, and the rejection-sampling
loop in spawn_wave is given explicit fuel, so spawning returns an Option.
The asteroid outline polygon is rendering-only data that the simulation
never reads; it is not modelled.  Rendering and window plumbing are out of
scope except for the player-visibility condition of Game::draw, which one
claim is about.
-/

namespace ZayDroids

noncomputable section

/-- SCREEN_WIDTH in main.cpp. -/
def SCREEN_WIDTH : ℝ := 900

/-- SCREEN_HEIGHT in main.cpp. -/
def SCREEN_HEIGHT : ℝ := 650

/-- SHIP_RADIUS in main.cpp. -/
def SHIP_RADIUS : ℝ := 12

/-- SHIP_TURN_SPEED in main.cpp, radians per second. -/
def SHIP_TURN_SPEED : ℝ := 3.5

/-- SHIP_ACCEL in main.cpp. -/
def SHIP_ACCEL : ℝ := 260

/-- SHIP_FRICTION in main.cpp. -/
def SHIP_FRICTION : ℝ := 0.98

/-- SHIP_MAX_SPEED in main.cpp. -/
def SHIP_MAX_SPEED : ℝ := 360

/-- BULLET_SPEED in main.cpp. -/
def BULLET_SPEED : ℝ := 520

/-- BULLET_LIFETIME in main.cpp. -/
def BULLET_LIFETIME : ℝ := 1.2

/-- BULLET_COOLDOWN in main.cpp. -/
def BULLET_COOLDOWN : ℝ := 0.18

/-- ASTEROID_BASE_SPEED in main.cpp. -/
def ASTEROID_BASE_SPEED : ℝ := 40

/-- LIVES_START in main.cpp. -/
def LIVES_START : ℤ := 3

/-- Raylib Vector2: a pair of scalar coordinates. -/
structure Vec where
  x : ℝ
  y : ℝ

/-- wrap_position in main.cpp: single-step toroidal wrap, each coordinate
shifted by one extent when below 0 or above the extent. -/
def wrap_position (pos : Vec) : Vec :=
  { x := if pos.x < 0 then pos.x + SCREEN_WIDTH
         else if pos.x > SCREEN_WIDTH then pos.x - SCREEN_WIDTH else pos.x,
    y := if pos.y < 0 then pos.y + SCREEN_HEIGHT
         else if pos.y > SCREEN_HEIGHT then pos.y - SCREEN_HEIGHT else pos.y }

/-- vec_from_angle in main.cpp. -/
def vec_from_angle (angle : ℝ) : Vec :=
  { x := Real.cos angle, y := Real.sin angle }

/-- vec_len in main.cpp (std::hypot). -/
def vec_len (v : Vec) : ℝ := Real.sqrt (v.x * v.x + v.y * v.y)

/-- vec_scale in main.cpp. -/
def vec_scale (v : Vec) (s : ℝ) : Vec := { x := v.x * s, y := v.y * s }

/-- vec_add in main.cpp. -/
def vec_add (a b : Vec) : Vec := { x := a.x + b.x, y := a.y + b.y }

/-- vec_sub in main.cpp. -/
def vec_sub (a b : Vec) : Vec := { x := a.x - b.x, y := a.y - b.y }

/-- vec_clamp_length in main.cpp: rescale to max_len when longer than
max_len and nonzero, otherwise return the vector unchanged. -/
def vec_clamp_length (v : Vec) (max_len : ℝ) : Vec :=
  if vec_len v > max_len ∧ vec_len v > 0 then
    vec_scale v (max_len / vec_len v)
  else v

/-- circle_collision in main.cpp: inclusive squared-distance overlap test. -/
def circle_collision (p1 : Vec) (r1 : ℝ) (p2 : Vec) (r2 : ℝ) : Prop :=
  (p1.x - p2.x) * (p1.x - p2.x) + (p1.y - p2.y) * (p1.y - p2.y)
    ≤ (r1 + r2) * (r1 + r2)

instance (p1 : Vec) (r1 : ℝ) (p2 : Vec) (r2 : ℝ) :
    Decidable (circle_collision p1 r1 p2 r2) :=
  inferInstanceAs (Decidable (_ ≤ _))

/-- ASTEROID_RADII lookup table in main.cpp: 3 maps to 42, 2 to 26, 1 to 14.
The sizes that occur are always 1, 2 or 3. -/
def ASTEROID_RADII (size : ℤ) : ℝ :=
  if size = 3 then 42 else if size = 2 then 26 else 14

/-- random_asteroid_velocity in main.cpp, with the two generator draws made
explicit: a direction angle (uniform over [0, 2pi)) and a speed draw s
(uniform over [0, 40)); speed = base + s + (3 - size) * 20. -/
def random_asteroid_velocity (size : ℤ) (angle s : ℝ) : Vec :=
  vec_scale (vec_from_angle angle)
    (ASTEROID_BASE_SPEED + s + (3 - (size : ℝ)) * 20)

/-- Bullet entity. -/
structure Bullet where
  pos : Vec
  vel : Vec
  life : ℝ

/-- Bullet::update in main.cpp. -/
def Bullet.update (dt : ℝ) (b : Bullet) : Bullet :=
  { b with pos := wrap_position (vec_add b.pos (vec_scale b.vel dt)),
           life := b.life - dt }

/-- Asteroid entity.  The outline polygon is rendering-only data, generated
once at construction and never read by the simulation; it is not modelled. -/
structure Asteroid where
  pos : Vec
  size : ℤ
  radius : ℝ
  vel : Vec

/-- The Asteroid constructor in main.cpp: radius from the size table, and a
random velocity computed from the drawn angle and speed draw. -/
def mkAsteroid (pos : Vec) (size : ℤ) (angle s : ℝ) : Asteroid :=
  { pos := pos, size := size, radius := ASTEROID_RADII size,
    vel := random_asteroid_velocity size angle s }

/-- Asteroid::update in main.cpp. -/
def Asteroid.update (dt : ℝ) (a : Asteroid) : Asteroid :=
  { a with pos := wrap_position (vec_add a.pos (vec_scale a.vel dt)) }

/-- Player entity. -/
structure Player where
  pos : Vec
  vel : Vec
  angle : ℝ
  cooldown : ℝ
  invuln : ℝ
  alive : Bool

/-- The Player constructor in main.cpp: centered, facing up, with no
invulnerability.  (The part_000 variant instead starts with 2 seconds of
invulnerability; main.cpp is modelled.) -/
def Player.initP : Player :=
  { pos := { x := SCREEN_WIDTH / 2, y := SCREEN_HEIGHT / 2 }, vel := { x := 0, y := 0 },
    angle := -(Real.pi / 2), cooldown := 0, invuln := 0, alive := true }

/-- Player::reset in main.cpp: recenter, stop, and grant 2.0 seconds of
invulnerability. -/
def Player.resetP (_p : Player) : Player :=
  { pos := { x := SCREEN_WIDTH / 2, y := SCREEN_HEIGHT / 2 }, vel := { x := 0, y := 0 },
    angle := -(Real.pi / 2), cooldown := 0, invuln := 2, alive := true }

/-- The per-frame input snapshot: boolean union per logical action. -/
structure Input where
  left : Bool
  right : Bool
  thrust : Bool
  fire : Bool
  restart : Bool

/-- Player::update in main.cpp: turn, thrust, exponential friction, speed
clamp, integrate, wrap, and decay the cooldown and invulnerability timers
(only while positive). -/
def Player.update (inp : Input) (dt : ℝ) (p : Player) : Player :=
  let angle1 := if inp.left then p.angle - SHIP_TURN_SPEED * dt else p.angle
  let angle2 := if inp.right then angle1 + SHIP_TURN_SPEED * dt else angle1
  let vel1 :=
    if inp.thrust then
      vec_add p.vel (vec_scale (vec_from_angle angle2) (SHIP_ACCEL * dt))
    else p.vel
  let vel2 := vec_scale vel1 (Real.rpow SHIP_FRICTION (dt * 60))
  let vel3 := vec_clamp_length vel2 SHIP_MAX_SPEED
  let pos1 := wrap_position (vec_add p.pos (vec_scale vel3 dt))
  let cooldown1 := if p.cooldown > 0 then p.cooldown - dt else p.cooldown
  let invuln1 := if p.invuln > 0 then p.invuln - dt else p.invuln
  { p with angle := angle2, vel := vel3, pos := pos1,
           cooldown := cooldown1, invuln := invuln1 }

/-- Player::shoot in main.cpp: refuse while the cooldown is positive,
otherwise emit a bullet ahead of the nose and reset the cooldown. -/
def Player.shoot (p : Player) : Option (Bullet × Player) :=
  if p.cooldown ≤ 0 then
    let dir := vec_from_angle p.angle
    some ({ pos := vec_add p.pos (vec_scale dir (SHIP_RADIUS + 6)),
            vel := vec_add p.vel (vec_scale dir BULLET_SPEED),
            life := BULLET_LIFETIME },
          { p with cooldown := BULLET_COOLDOWN })
  else none

/-- The global random generator, modelled as typed draw streams; each draw
event consumes one index. -/
structure Oracle where
  posD : ℕ → Vec
  angleD : ℕ → ℝ
  speedD : ℕ → ℝ

/-- Range constraints the C++ distributions guarantee for every draw. -/
def Oracle.Valid (o : Oracle) : Prop :=
  ∀ k, 0 ≤ (o.posD k).x ∧ (o.posD k).x < SCREEN_WIDTH ∧
       0 ≤ (o.posD k).y ∧ (o.posD k).y < SCREEN_HEIGHT ∧
       0 ≤ o.angleD k ∧ o.angleD k < 2 * Real.pi ∧
       0 ≤ o.speedD k ∧ o.speedD k < 40

/-- The inner bullet loop of Game::handle_collisions for one asteroid: the
first bullet overlapping the asteroid gets its life set to 0 (the loop
breaks there); none when no bullet overlaps.  Bullet life is not consulted
by the test, so a bullet zeroed earlier in the same pass still hits. -/
def zeroFirstHit (a : Asteroid) : List Bullet → Option (List Bullet)
  | [] => none
  | b :: bs =>
    if circle_collision b.pos 2 a.pos a.radius then
      some ({ b with life := 0 } :: bs)
    else (zeroFirstHit a bs).map (fun bs2 => b :: bs2)

/-- Accumulator of the bullet-asteroid pass in Game::handle_collisions. -/
structure BAState where
  bullets : List Bullet
  newAsts : List Asteroid
  remaining : List Asteroid
  score : ℤ
  k : ℕ

/-- One iteration of the outer asteroid loop of Game::handle_collisions.
On a hit: award 10 * size points and, when size > 1, push two children at
the parent position with size - 1.  In main.cpp each child is constructed
(drawing a velocity, one oracle index) and its velocity is then immediately
overwritten by a second random_asteroid_velocity call (a second index), so
each child consumes two indices.  A missed asteroid is kept in remaining;
a hit asteroid is dropped (deleted). -/
def processAsteroid (o : Oracle) (st : BAState) (a : Asteroid) : BAState :=
  match zeroFirstHit a st.bullets with
  | none => { st with remaining := st.remaining ++ [a] }
  | some bullets2 =>
    let children :=
      if 1 < a.size then
        [ { mkAsteroid a.pos (a.size - 1) (o.angleD st.k) (o.speedD st.k) with
              vel := random_asteroid_velocity (a.size - 1)
                (o.angleD (st.k + 1)) (o.speedD (st.k + 1)) },
          { mkAsteroid a.pos (a.size - 1) (o.angleD (st.k + 2)) (o.speedD (st.k + 2)) with
              vel := random_asteroid_velocity (a.size - 1)
                (o.angleD (st.k + 3)) (o.speedD (st.k + 3)) } ]
      else []
    { bullets := bullets2, newAsts := st.newAsts ++ children,
      remaining := st.remaining, score := st.score + 10 * a.size,
      k := st.k + if 1 < a.size then 4 else 0 }

/-- The erase-remove of bullets with life at or below 0 in main.cpp. -/
def removeDead : List Bullet → List Bullet
  | [] => []
  | b :: bs => if b.life ≤ 0 then removeDead bs else b :: removeDead bs

/-- The player-asteroid loop body of Game::handle_collisions: on the first
overlap, decrement lives, reset the player, set game over when lives reach
0 or below, and break. -/
def playerLoop (p : Player) (lives : ℤ) (go : Bool) :
    List Asteroid → Player × ℤ × Bool
  | [] => (p, lives, go)
  | a :: rest =>
    if circle_collision p.pos SHIP_RADIUS a.pos a.radius then
      (Player.resetP p, lives - 1, if lives - 1 ≤ 0 then true else go)
    else playerLoop p lives go rest

/-- The player-asteroid pass of Game::handle_collisions, guarded by the
invulnerability check. -/
def playerPass (p : Player) (lives : ℤ) (go : Bool) (asts : List Asteroid) :
    Player × ℤ × Bool :=
  if p.invuln ≤ 0 then playerLoop p lives go asts else (p, lives, go)

/-- The full simulation state owned by the Game class.  rngK is the position
of the shared random stream. -/
structure Game where
  player : Player
  bullets : List Bullet
  asteroids : List Asteroid
  score : ℤ
  lives : ℤ
  wave : ℤ
  game_over : Bool
  rngK : ℕ

/-- Game::handle_collisions in main.cpp: the bullet-asteroid pass (a fold of
processAsteroid over the asteroid list), replacement of the asteroid list by
remaining ++ children, removal of dead bullets, then the player-asteroid
pass. -/
def Game.handle_collisions (o : Oracle) (g : Game) : Game :=
  let st := g.asteroids.foldl (processAsteroid o)
    { bullets := g.bullets, newAsts := [], remaining := [],
      score := g.score, k := g.rngK }
  let asteroids2 := st.remaining ++ st.newAsts
  let r := playerPass g.player g.lives g.game_over asteroids2
  { g with player := r.1, bullets := removeDead st.bullets,
           asteroids := asteroids2, score := st.score,
           lives := r.2.1, game_over := r.2.2, rngK := st.k }

/-- The movement half of Game::update in main.cpp: advance the player,
spawn a bullet on fire input when the cooldown allows, advance bullets and
drop the expired, and advance asteroids. -/
def Game.movePhase (inp : Input) (dt : ℝ) (g : Game) : Game :=
  let p1 := g.player.update inp dt
  let fired :=
    if inp.fire then
      match p1.shoot with
      | some bp => (bp.2, g.bullets ++ [bp.1])
      | none => (p1, g.bullets)
    else (p1, g.bullets)
  { g with player := fired.1,
           bullets := removeDead (fired.2.map (Bullet.update dt)),
           asteroids := g.asteroids.map (Asteroid.update dt) }

/-- The physics part of Game::update in main.cpp (everything between the
game-over guard and the wave-completion check): the movement phase followed
by collision resolution. -/
def Game.stepPhys (o : Oracle) (inp : Input) (dt : ℝ) (g : Game) : Game :=
  Game.handle_collisions o (Game.movePhase inp dt g)

/-- The rejection-sampling placement loop of Game::spawn_wave: draw a
position and retry while it is within 80 + 120 of the player; fuel bounds
the number of attempts. -/
def pickPos (o : Oracle) (ppos : Vec) : ℕ → ℕ → Option (Vec × ℕ)
  | 0, _ => none
  | fuel + 1, k =>
    if circle_collision (o.posD k) 80 ppos 120 then pickPos o ppos fuel (k + 1)
    else some (o.posD k, k + 1)

/-- The spawn loop of Game::spawn_wave: n Large asteroids, each placed by
pickPos and constructed with the next draw. -/
def spawnList (o : Oracle) (ppos : Vec) (fuel : ℕ) :
    ℕ → ℕ → Option (List Asteroid × ℕ)
  | 0, k => some ([], k)
  | n + 1, k =>
    match pickPos o ppos fuel k with
    | none => none
    | some pk =>
      (spawnList o ppos fuel n (pk.2 + 1)).map
        (fun r => (mkAsteroid pk.1 3 (o.angleD pk.2) (o.speedD pk.2) :: r.1, r.2))

/-- Game::spawn_wave in main.cpp: replace the asteroid set by 3 + wave_num
freshly placed Large asteroids. -/
def spawn_wave (o : Oracle) (wave_num : ℤ) (ppos : Vec) (fuel : ℕ) (k : ℕ) :
    Option (List Asteroid × ℕ) :=
  spawnList o ppos fuel (3 + wave_num).toNat k

/-- The Game constructor in main.cpp: score 0, lives 3, wave 1, not game
over, and the first wave spawned around the freshly constructed player. -/
def Game.init (o : Oracle) (fuel : ℕ) : Option Game :=
  (spawn_wave o 1 Player.initP.pos fuel 0).map fun r =>
    { player := Player.initP, bullets := [], asteroids := r.1,
      score := 0, lives := LIVES_START, wave := 1, game_over := false,
      rngK := r.2 }

/-- Game::reset in main.cpp: restore score, lives, wave and the game-over
flag, reset the player, clear bullets, and spawn wave 1. -/
def Game.resetG (o : Oracle) (fuel : ℕ) (g : Game) : Option Game :=
  (spawn_wave o 1 (Player.resetP g.player).pos fuel g.rngK).map fun r =>
    { player := Player.resetP g.player, bullets := [], asteroids := r.1,
      score := 0, lives := LIVES_START, wave := 1, game_over := false,
      rngK := r.2 }

/-- Game::update in main.cpp: frozen at game over except for the restart
trigger; otherwise run the physics step and, when the asteroid set came out
empty, advance the wave, grant fresh invulnerability, and spawn the next
wave. -/
def Game.update (o : Oracle) (fuel : ℕ) (inp : Input) (dt : ℝ) (g : Game) :
    Option Game :=
  if g.game_over then
    if inp.restart then Game.resetG o fuel g else some g
  else
    match (Game.stepPhys o inp dt g).asteroids with
    | [] =>
      (spawn_wave o ((Game.stepPhys o inp dt g).wave + 1)
          (Game.stepPhys o inp dt g).player.pos fuel
          (Game.stepPhys o inp dt g).rngK).map fun r =>
        { Game.stepPhys o inp dt g with
          wave := (Game.stepPhys o inp dt g).wave + 1,
          player := { (Game.stepPhys o inp dt g).player with invuln := 2 },
          asteroids := r.1, rngK := r.2 }
    | _ :: _ => some (Game.stepPhys o inp dt g)

/-- The player-visibility condition of Game::draw in main.cpp: the player
triangle is drawn when the game is not over or the invulnerability timer is
still positive. -/
def PlayerDrawn (g : Game) : Prop :=
  g.game_over = false ∨ 0 < g.player.invuln

/-- States reachable from the Game constructor under valid frame steps of
the main loop (nonnegative frame delta, arbitrary inputs and fuel), sharing
one random oracle. -/
inductive Reachable (o : Oracle) : Game → Prop where
  | init (fuel : ℕ) (g : Game) (h : Game.init o fuel = some g) : Reachable o g
  | step (g g' : Game) (fuel : ℕ) (inp : Input) (dt : ℝ) (hr : Reachable o g)
      (hdt : 0 ≤ dt) (h : Game.update o fuel inp dt g = some g') :
      Reachable o g'

/-! ### Concrete instances used by witnesses and counterexamples -/

/-- An oracle whose every draw is the in-range constant (0, 0) position,
angle 0 and speed draw 0. -/
def constOracle : Oracle :=
  { posD := fun _ => { x := 0, y := 0 }, angleD := fun _ => 0,
    speedD := fun _ => 0 }

/-- A concrete state with one bullet overlapping two Small asteroids at
once, for the multi-hit claim. -/
def gMultiHit : Game :=
  { player := { pos := { x := 500, y := 500 }, vel := { x := 0, y := 0 },
                angle := 0, cooldown := 0, invuln := 0, alive := true },
    bullets := [{ pos := { x := 0, y := 0 }, vel := { x := 0, y := 0 },
                  life := 1.2 }],
    asteroids := [{ pos := { x := 0, y := 0 }, size := 1, radius := 14,
                    vel := { x := 0, y := 0 } },
                  { pos := { x := 5, y := 0 }, size := 1, radius := 14,
                    vel := { x := 0, y := 0 } }],
    score := 0, lives := 3, wave := 1, game_over := false, rngK := 0 }

/-- The no-input snapshot. -/
def inpNone : Input :=
  { left := false, right := false, thrust := false, fire := false,
    restart := false }

/-- The restart-only input snapshot. -/
def inpRestart : Input :=
  { left := false, right := false, thrust := false, fire := false,
    restart := true }

/-- A game state with no asteroids left, used to exercise the
wave-completion branch. -/
def gEmptyAst : Game :=
  { player := Player.initP, bullets := [], asteroids := [],
    score := 0, lives := 3, wave := 1, game_over := false, rngK := 0 }

/-- A game-over state as the code reaches it: the fatal hit has just reset
the player, so 2 seconds of invulnerability remain. -/
def gOver : Game :=
  { player := { pos := { x := 450, y := 325 }, vel := { x := 0, y := 0 },
                angle := 0, cooldown := 0, invuln := 2, alive := true },
    bullets := [],
    asteroids := [{ pos := { x := 100, y := 100 }, size := 1, radius := 14,
                    vel := { x := 0, y := 0 } }],
    score := 120, lives := 0, wave := 3, game_over := true, rngK := 0 }

/-- A game-over state whose invulnerability timer has run out. -/
def gOverIv0 : Game :=
  { player := { pos := { x := 450, y := 325 }, vel := { x := 0, y := 0 },
                angle := 0, cooldown := 0, invuln := 0, alive := true },
    bullets := [], asteroids := [], score := 0, lives := 0, wave := 1,
    game_over := true, rngK := 0 }

/-- The inductive state invariant behind the lives bookkeeping: lives are
nonnegative, zero lives only at game over, and every asteroid size is at
least 1. -/
def Inv (g : Game) : Prop :=
  0 ≤ g.lives ∧ (g.lives = 0 → g.game_over = true) ∧
  ∀ a ∈ g.asteroids, 1 ≤ a.size

/-- A centered resting player with the given cooldown and invulnerability
timers, as it occurs along the three-death trace. -/
def pC6 (cd iv : ℝ) : Player :=
  { pos := { x := 450, y := 325 }, vel := { x := 0, y := 0 },
    angle := -(Real.pi / 2), cooldown := cd, invuln := iv, alive := true }

/-- A Large asteroid literal with the given position and velocity. -/
def aC6 (px py vx vy : ℝ) : Asteroid :=
  { pos := { x := px, y := py }, size := 3, radius := 42,
    vel := { x := vx, y := vy } }

/-- The oracle driving the three-death trace: the wave-1 draws sit at
indices 0 to 7, the restart draws from index 8 on. -/
def oC6 : Oracle :=
  { posD := fun k =>
      if k = 0 then { x := 450, y := 100 }
      else if k = 2 then { x := 850, y := 325 }
      else if k = 4 then { x := 700, y := 325 }
      else if k = 6 then { x := 50, y := 50 }
      else { x := 0, y := 0 },
    angleD := fun k =>
      if k = 1 then Real.pi / 2
      else if k = 3 then Real.pi
      else if k = 5 then Real.pi
      else if k = 7 then Real.pi / 2
      else 0,
    speedD := fun k => if k = 5 then 39 else 0 }

/-- The initial state of the three-death trace (result of the Game
constructor under oC6). -/
def gC6_0 : Game :=
  { player := pC6 0 0, bullets := [],
    asteroids := [aC6 450 100 0 40, aC6 850 325 (-40) 0,
                  aC6 700 325 (-79) 0, aC6 50 50 0 40],
    score := 0, lives := 3, wave := 1, game_over := false, rngK := 8 }

/-- After one dt = 5 frame: the first asteroid has reached the player, one
life is lost, and the player has respawned with 2 seconds of grace. -/
def gC6_1 : Game :=
  { player := pC6 0 2, bullets := [],
    asteroids := [aC6 450 300 0 40, aC6 650 325 (-40) 0,
                  aC6 305 325 (-79) 0, aC6 50 250 0 40],
    score := 0, lives := 2, wave := 1, game_over := false, rngK := 8 }

/-- After the second dt = 5 frame: the second asteroid kills, one life
remains. -/
def gC6_2 : Game :=
  { player := pC6 0 2, bullets := [],
    asteroids := [aC6 450 500 0 40, aC6 450 325 (-40) 0,
                  aC6 810 325 (-79) 0, aC6 50 450 0 40],
    score := 0, lives := 1, wave := 1, game_over := false, rngK := 8 }

/-- After the third dt = 5 frame: the third asteroid kills, lives reach 0
and the game is over. -/
def gC6_3 : Game :=
  { player := pC6 0 2, bullets := [],
    asteroids := [aC6 450 50 0 40, aC6 250 325 (-40) 0,
                  aC6 415 325 (-79) 0, aC6 50 650 0 40],
    score := 0, lives := 0, wave := 1, game_over := true, rngK := 8 }

/-- The state after pressing restart at game over: lives jump back to 3. -/
def gC6_4 : Game :=
  { player := pC6 0 2, bullets := [],
    asteroids := List.replicate 4 (aC6 0 0 40 0),
    score := 0, lives := 3, wave := 1, game_over := false, rngK := 16 }

/-! ### Helper lemmas -/

theorem vec_len_nonneg (v : Vec) : 0 ≤ vec_len v := Real.sqrt_nonneg _

theorem vec_scale_zero_vec (s : ℝ) :
    vec_scale { x := 0, y := 0 } s = { x := 0, y := 0 } := by
  unfold vec_scale
  norm_num

theorem vec_add_zero_right (v : Vec) :
    vec_add v { x := 0, y := 0 } = v := by
  unfold vec_add
  norm_num

theorem vec_len_zero_vec : vec_len { x := 0, y := 0 } = 0 := by
  unfold vec_len
  norm_num

theorem vec_clamp_length_zero_vec (m : ℝ) :
    vec_clamp_length { x := 0, y := 0 } m = { x := 0, y := 0 } := by
  unfold vec_clamp_length
  rw [vec_len_zero_vec, if_neg]
  rintro ⟨_, h⟩
  exact lt_irrefl 0 h

theorem wrap_position_id (p : Vec) (h1 : ¬ p.x < 0) (h2 : ¬ p.x > SCREEN_WIDTH)
    (h3 : ¬ p.y < 0) (h4 : ¬ p.y > SCREEN_HEIGHT) :
    wrap_position p = p := by
  unfold wrap_position
  rw [if_neg h1, if_neg h2, if_neg h3, if_neg h4]

/-- A resting player (zero velocity, in-range position) with no movement
input keeps its pose; only the timers decay. -/
theorem Player.update_resting (inp : Input) (dt : ℝ) (p : Player)
    (hl : inp.left = false) (hr : inp.right = false) (ht : inp.thrust = false)
    (hv : p.vel = { x := 0, y := 0 })
    (h1 : ¬ p.pos.x < 0) (h2 : ¬ p.pos.x > SCREEN_WIDTH)
    (h3 : ¬ p.pos.y < 0) (h4 : ¬ p.pos.y > SCREEN_HEIGHT) :
    p.update inp dt =
      { p with
        cooldown := if p.cooldown > 0 then p.cooldown - dt else p.cooldown,
        invuln := if p.invuln > 0 then p.invuln - dt else p.invuln } := by
  unfold Player.update
  simp only [hl, hr, ht, hv, Bool.false_eq_true, if_false,
    vec_scale_zero_vec, vec_clamp_length_zero_vec, vec_add_zero_right,
    wrap_position_id p.pos h1 h2 h3 h4]

theorem vec_len_scale (v : Vec) (s : ℝ) :
    vec_len (vec_scale v s) = |s| * vec_len v := by
  unfold vec_len vec_scale
  have h : v.x * s * (v.x * s) + v.y * s * (v.y * s)
      = s * s * (v.x * v.x + v.y * v.y) := by ring
  rw [h, Real.sqrt_mul (mul_self_nonneg s), Real.sqrt_mul_self_eq_abs]

/-- A position accepted by the rejection loop is outside the 80 + 120
exclusion circle around the player. -/
theorem pickPos_far (o : Oracle) (ppos : Vec) (fuel : ℕ) :
    ∀ k v k2, pickPos o ppos fuel k = some (v, k2) →
      ¬ circle_collision v 80 ppos 120 := by
  induction fuel with
  | zero => intro k v k2 h; simp [pickPos] at h
  | succ n ih =>
    intro k v k2 h
    unfold pickPos at h
    split_ifs at h with hc
    · exact ih _ _ _ h
    · simp only [Option.some.injEq, Prod.mk.injEq] at h
      rcases h with ⟨h1, _⟩
      rw [← h1]
      exact hc

/-- Every successful spawn loop run returns exactly n Large asteroids, all
placed outside the exclusion circle around the player. -/
theorem spawnList_props (o : Oracle) (ppos : Vec) (fuel : ℕ) :
    ∀ n k as k2, spawnList o ppos fuel n k = some (as, k2) →
      as.length = n ∧ ∀ a ∈ as, a.size = 3 ∧ a.radius = 42 ∧
        ¬ circle_collision a.pos 80 ppos 120 := by
  intro n
  induction n with
  | zero =>
    intro k as k2 h
    simp only [spawnList, Option.some.injEq, Prod.mk.injEq] at h
    rcases h with ⟨h1, _⟩
    rw [← h1]
    exact ⟨rfl, by simp⟩
  | succ n ih =>
    intro k as k2 h
    unfold spawnList at h
    cases hp : pickPos o ppos fuel k with
    | none => rw [hp] at h; simp at h
    | some pk =>
      rw [hp] at h
      dsimp only at h
      cases hs : spawnList o ppos fuel n (pk.2 + 1) with
      | none => rw [hs] at h; simp at h
      | some r =>
        rw [hs] at h
        simp only [Option.map_some', Option.some.injEq, Prod.mk.injEq] at h
        rcases h with ⟨h1, _⟩
        rcases ih _ _ _ hs with ⟨hlen, hmem⟩
        rw [← h1]
        constructor
        · simp [hlen]
        · intro a ha
          rcases List.mem_cons.mp ha with rfl | ha2
          · exact ⟨rfl, rfl, pickPos_far o ppos fuel _ _ _ hp⟩
          · exact hmem a ha2

/-- Being outside the 80 + 120 exclusion circle means being farther than
200 length units away. -/
theorem far_of_not_collision (v ppos : Vec)
    (h : ¬ circle_collision v 80 ppos 120) :
    200 < vec_len (vec_sub v ppos) := by
  unfold circle_collision at h
  push_neg at h
  unfold vec_len vec_sub
  rw [Real.lt_sqrt (by norm_num)]
  norm_num at h ⊢
  linarith

theorem stepPhys_wave (o : Oracle) (inp : Input) (dt : ℝ) (g : Game) :
    (Game.stepPhys o inp dt g).wave = g.wave := rfl

/-- Under the constant oracle the rejection loop accepts the first draw
whenever (0, 0) is outside the exclusion circle. -/
theorem pickPos_const_eval (ppos : Vec) (fuel k : ℕ)
    (hfar : ¬ circle_collision { x := 0, y := 0 } 80 ppos 120) :
    pickPos constOracle ppos (fuel + 1) k
      = some ({ x := 0, y := 0 }, k + 1) := by
  unfold pickPos constOracle
  dsimp only
  rw [if_neg hfar]

/-- Under the constant oracle the spawn loop produces n copies of the
asteroid built from the zero draws, consuming two indices per asteroid. -/
theorem spawnList_const_eval (ppos : Vec) (fuel : ℕ)
    (hfar : ¬ circle_collision { x := 0, y := 0 } 80 ppos 120) :
    ∀ n k, spawnList constOracle ppos (fuel + 1) n k =
      some (List.replicate n (mkAsteroid { x := 0, y := 0 } 3 0 0),
        k + 2 * n) := by
  intro n
  induction n with
  | zero => intro k; simp [spawnList]
  | succ n ih =>
    intro k
    unfold spawnList
    rw [pickPos_const_eval ppos fuel k hfar]
    dsimp only
    rw [ih (k + 1 + 1)]
    simp only [Option.map_some', Option.some.injEq, Prod.mk.injEq,
      List.replicate_succ, constOracle]
    exact ⟨trivial, by omega⟩

/-- The player-asteroid loop returns the death result whenever some listed
asteroid overlaps the player. -/
theorem playerLoop_hit (p : Player) (lives : ℤ) (go : Bool)
    (asts : List Asteroid)
    (h : ∃ a ∈ asts, circle_collision p.pos SHIP_RADIUS a.pos a.radius) :
    playerLoop p lives go asts =
      (Player.resetP p, lives - 1, if lives - 1 ≤ 0 then true else go) := by
  induction asts with
  | nil => rcases h with ⟨a, ha, _⟩; cases ha
  | cons a rest ih =>
    by_cases hc : circle_collision p.pos SHIP_RADIUS a.pos a.radius
    · unfold playerLoop
      rw [if_pos hc]
    · unfold playerLoop
      rw [if_neg hc]
      apply ih
      rcases h with ⟨b, hb, hcb⟩
      rcases List.mem_cons.mp hb with rfl | hb2
      · exact absurd hcb hc
      · exact ⟨b, hb2, hcb⟩

/-- Anatomy of a successful zeroFirstHit: the bullet list splits at the
first overlapping bullet, which is returned with its life zeroed. -/
theorem zeroFirstHit_eq_some (a : Asteroid) (bs bs2 : List Bullet)
    (h : zeroFirstHit a bs = some bs2) :
    ∃ pre b post, bs = pre ++ b :: post ∧
      circle_collision b.pos 2 a.pos a.radius ∧
      (∀ b2 ∈ pre, ¬ circle_collision b2.pos 2 a.pos a.radius) ∧
      bs2 = pre ++ { b with life := 0 } :: post := by
  induction bs generalizing bs2 with
  | nil => simp [zeroFirstHit] at h
  | cons b rest ih =>
    unfold zeroFirstHit at h
    split_ifs at h with hc
    · refine ⟨[], b, rest, rfl, hc, by simp, ?_⟩
      injection h with h
      simp [h.symm]
    · cases hz : zeroFirstHit a rest with
      | none => rw [hz] at h; simp at h
      | some bs3 =>
        rw [hz] at h
        simp only [Option.map_some', Option.some.injEq] at h
        rcases ih bs3 hz with ⟨pre, b2, post, he, hcb, hpre, he2⟩
        refine ⟨b :: pre, b2, post, by rw [he, List.cons_append], hcb, ?_,
          by rw [← h, he2, List.cons_append]⟩
        intro x hx
        rcases List.mem_cons.mp hx with rfl | hx2
        · exact hc
        · exact hpre x hx2

/-- The player-asteroid loop either changes nothing or performs exactly one
death: decrement, reset, and game over when the decrement reaches 0. -/
theorem playerLoop_cases (p : Player) (lives : ℤ) (go : Bool)
    (asts : List Asteroid) :
    playerLoop p lives go asts = (p, lives, go) ∨
    playerLoop p lives go asts =
      (Player.resetP p, lives - 1, if lives - 1 ≤ 0 then true else go) := by
  induction asts with
  | nil => exact Or.inl rfl
  | cons a rest ih =>
    by_cases hc : circle_collision p.pos SHIP_RADIUS a.pos a.radius
    · unfold playerLoop
      rw [if_pos hc]
      exact Or.inr rfl
    · unfold playerLoop
      rw [if_neg hc]
      exact ih

/-- Same dichotomy for the guarded pass. -/
theorem playerPass_cases (p : Player) (lives : ℤ) (go : Bool)
    (asts : List Asteroid) :
    playerPass p lives go asts = (p, lives, go) ∨
    playerPass p lives go asts =
      (Player.resetP p, lives - 1, if lives - 1 ≤ 0 then true else go) := by
  unfold playerPass
  by_cases hinv : p.invuln ≤ 0
  · rw [if_pos hinv]
    exact playerLoop_cases p lives go asts
  · rw [if_neg hinv]
    exact Or.inl rfl

/-- The bullet-asteroid fold never lowers the score and keeps every kept or
spawned asteroid at size at least 1, as long as the incoming sizes are. -/
theorem baFold_props (o : Oracle) :
    ∀ (asts : List Asteroid) (st : BAState),
      (∀ a ∈ asts, 1 ≤ a.size) →
      (∀ a ∈ st.remaining ++ st.newAsts, 1 ≤ a.size) →
      st.score ≤ (asts.foldl (processAsteroid o) st).score ∧
      ∀ a ∈ (asts.foldl (processAsteroid o) st).remaining ++
            (asts.foldl (processAsteroid o) st).newAsts, 1 ≤ a.size := by
  intro asts
  induction asts with
  | nil => exact fun st _ h2 => ⟨le_rfl, h2⟩
  | cons a rest ih =>
    intro st h1 h2
    rw [List.foldl_cons]
    have ha : 1 ≤ a.size := h1 a (List.mem_cons_self a rest)
    have hstep : st.score ≤ (processAsteroid o st a).score ∧
        ∀ b ∈ (processAsteroid o st a).remaining ++
              (processAsteroid o st a).newAsts, 1 ≤ b.size := by
      unfold processAsteroid
      cases hz : zeroFirstHit a st.bullets with
      | none =>
        refine ⟨le_rfl, ?_⟩
        intro b hb
        rcases List.mem_append.mp hb with hb1 | hb2
        · rcases List.mem_append.mp hb1 with hb3 | hb4
          · exact h2 b (List.mem_append.mpr (Or.inl hb3))
          · rw [List.mem_singleton.mp hb4]
            exact ha
        · exact h2 b (List.mem_append.mpr (Or.inr hb2))
      | some bs2 =>
        dsimp only
        constructor
        · have : (0 : ℤ) ≤ 10 * a.size := by linarith
          linarith
        · intro b hb
          rcases List.mem_append.mp hb with hb1 | hb2
          · exact h2 b (List.mem_append.mpr (Or.inl hb1))
          · rcases List.mem_append.mp hb2 with hb3 | hb4
            · exact h2 b (List.mem_append.mpr (Or.inr hb3))
            · split_ifs at hb4 with hs
              · rcases List.mem_cons.mp hb4 with rfl | hb5
                · show (1 : ℤ) ≤ a.size - 1
                  omega
                · rcases List.mem_cons.mp hb5 with rfl | hb6
                  · show (1 : ℤ) ≤ a.size - 1
                    omega
                  · cases hb6
              · cases hb4
    have hrest : ∀ b ∈ rest, 1 ≤ b.size :=
      fun b hb => h1 b (List.mem_cons_of_mem a hb)
    rcases ih (processAsteroid o st a) hrest hstep.2 with ⟨hs2, hm2⟩
    exact ⟨le_trans hstep.1 hs2, hm2⟩

/-- Collision resolution keeps the wave, never lowers the score, keeps all
asteroid sizes at least 1, and either leaves lives and the game-over flag
alone or performs exactly one death. -/
theorem handle_collisions_props (o : Oracle) (g : Game)
    (hsz : ∀ a ∈ g.asteroids, 1 ≤ a.size) :
    (Game.handle_collisions o g).wave = g.wave ∧
    g.score ≤ (Game.handle_collisions o g).score ∧
    (∀ a ∈ (Game.handle_collisions o g).asteroids, 1 ≤ a.size) ∧
    ((Game.handle_collisions o g).lives = g.lives ∧
       (Game.handle_collisions o g).game_over = g.game_over ∨
     (Game.handle_collisions o g).lives = g.lives - 1 ∧
       (Game.handle_collisions o g).game_over
         = (if g.lives - 1 ≤ 0 then true else g.game_over)) := by
  have hf := baFold_props o g.asteroids
    { bullets := g.bullets, newAsts := [], remaining := [],
      score := g.score, k := g.rngK } hsz (by simp)
  unfold Game.handle_collisions
  dsimp only
  refine ⟨rfl, hf.1, ?_, ?_⟩
  · intro a ha
    exact hf.2 a ha
  · rcases playerPass_cases g.player g.lives g.game_over
      ((g.asteroids.foldl (processAsteroid o)
        { bullets := g.bullets, newAsts := [], remaining := [],
          score := g.score, k := g.rngK }).remaining ++
       (g.asteroids.foldl (processAsteroid o)
        { bullets := g.bullets, newAsts := [], remaining := [],
          score := g.score, k := g.rngK }).newAsts) with hp | hp
    · rw [hp]
      exact Or.inl ⟨rfl, rfl⟩
    · rw [hp]
      exact Or.inr ⟨rfl, rfl⟩

/-- The asteroid sizes survive the movement phase. -/
theorem movePhase_sizes (inp : Input) (dt : ℝ) (g : Game)
    (hsz : ∀ a ∈ g.asteroids, 1 ≤ a.size) :
    ∀ a ∈ (Game.movePhase inp dt g).asteroids, 1 ≤ a.size := by
  intro a ha
  rcases List.mem_map.mp ha with ⟨b, hb, rfl⟩
  exact hsz b hb

/-- The whole physics step keeps the wave, never lowers the score, keeps
all asteroid sizes at least 1, and loses at most one life, setting game
over when the loss empties the pool. -/
theorem stepPhys_props (o : Oracle) (inp : Input) (dt : ℝ) (g : Game)
    (hsz : ∀ a ∈ g.asteroids, 1 ≤ a.size) :
    (Game.stepPhys o inp dt g).wave = g.wave ∧
    g.score ≤ (Game.stepPhys o inp dt g).score ∧
    (∀ a ∈ (Game.stepPhys o inp dt g).asteroids, 1 ≤ a.size) ∧
    ((Game.stepPhys o inp dt g).lives = g.lives ∧
       (Game.stepPhys o inp dt g).game_over = g.game_over ∨
     (Game.stepPhys o inp dt g).lives = g.lives - 1 ∧
       (Game.stepPhys o inp dt g).game_over
         = (if g.lives - 1 ≤ 0 then true else g.game_over)) :=
  handle_collisions_props o (Game.movePhase inp dt g)
    (movePhase_sizes inp dt g hsz)

/-! ### C5: toroidal wrap -/

/-- C5 counterexample: the position with x = 900 lies within one screen
extent of the valid range, yet wrap leaves it at x = 900, which is not in
the half-open interval [0, 900) the claim asserts. -/
theorem C5_wrap_counterexample :
    ¬ (wrap_position { x := 900, y := 325 }).x < SCREEN_WIDTH := by
  norm_num [wrap_position, SCREEN_WIDTH, SCREEN_HEIGHT]

/-- C5 (amended): for every position whose coordinates lie within one screen
extent of the valid range, wrap lands in the closed box
[0, W] x [0, H] (not the half-open one: both extremes are reachable), and
wrap is the identity on positions already inside [0, W) x [0, H). -/
theorem C5_wrap_amended (p : Vec)
    (hx1 : -SCREEN_WIDTH ≤ p.x) (hx2 : p.x ≤ 2 * SCREEN_WIDTH)
    (hy1 : -SCREEN_HEIGHT ≤ p.y) (hy2 : p.y ≤ 2 * SCREEN_HEIGHT) :
    (0 ≤ (wrap_position p).x ∧ (wrap_position p).x ≤ SCREEN_WIDTH ∧
     0 ≤ (wrap_position p).y ∧ (wrap_position p).y ≤ SCREEN_HEIGHT) ∧
    (0 ≤ p.x → p.x < SCREEN_WIDTH → 0 ≤ p.y → p.y < SCREEN_HEIGHT →
      wrap_position p = p) := by
  unfold wrap_position SCREEN_WIDTH SCREEN_HEIGHT at *
  constructor
  · refine ⟨?_, ?_, ?_, ?_⟩ <;> simp only [] <;> split_ifs <;> linarith
  · intro h1 h2 h3 h4
    rw [if_neg (by linarith), if_neg (by linarith),
        if_neg (by linarith), if_neg (by linarith)]

/-- Witness for C5_wrap_amended at the concrete in-range position (10, 20). -/
theorem C5_wrap_amended_witness :
    (0 ≤ (wrap_position { x := 10, y := 20 }).x ∧
     (wrap_position { x := 10, y := 20 }).x ≤ SCREEN_WIDTH ∧
     0 ≤ (wrap_position { x := 10, y := 20 }).y ∧
     (wrap_position { x := 10, y := 20 }).y ≤ SCREEN_HEIGHT) ∧
    wrap_position { x := 10, y := 20 } = { x := 10, y := 20 } := by
  have h := C5_wrap_amended { x := 10, y := 20 }
    (by norm_num [SCREEN_WIDTH]) (by norm_num [SCREEN_WIDTH])
    (by norm_num [SCREEN_HEIGHT]) (by norm_num [SCREEN_HEIGHT])
  exact ⟨h.1, h.2 (by norm_num) (by norm_num [SCREEN_WIDTH])
    (by norm_num) (by norm_num [SCREEN_HEIGHT])⟩

/-! ### C7: firing cooldown -/

/-- C7: shoot returns no bullet and changes nothing while the cooldown is
positive; when the cooldown is at or below 0, it always returns a bullet and
resets the cooldown to the fixed constant 0.18 seconds. -/
theorem C7_shoot_cooldown (p : Player) :
    (0 < p.cooldown → p.shoot = none) ∧
    (p.cooldown ≤ 0 →
      ∃ b, p.shoot = some (b, { p with cooldown := BULLET_COOLDOWN })) := by
  constructor
  · intro h
    unfold Player.shoot
    rw [if_neg (not_le.mpr h)]
  · intro h
    refine ⟨{ pos := vec_add p.pos (vec_scale (vec_from_angle p.angle) (SHIP_RADIUS + 6)),
              vel := vec_add p.vel (vec_scale (vec_from_angle p.angle) BULLET_SPEED),
              life := BULLET_LIFETIME }, ?_⟩
    unfold Player.shoot
    rw [if_pos h]

/-- Witness for C7_shoot_cooldown: a player on cooldown 1 is refused; a
player at cooldown 0 fires and is reset to the 0.18-second cooldown. -/
theorem C7_shoot_cooldown_witness :
    ({ pos := { x := 0, y := 0 }, vel := { x := 0, y := 0 }, angle := 0,
       cooldown := 1, invuln := 0, alive := true } : Player).shoot = none ∧
    ∃ b, ({ pos := { x := 0, y := 0 }, vel := { x := 0, y := 0 }, angle := 0,
            cooldown := 0, invuln := 0, alive := true } : Player).shoot =
      some (b, { pos := { x := 0, y := 0 }, vel := { x := 0, y := 0 }, angle := 0,
                 cooldown := BULLET_COOLDOWN, invuln := 0, alive := true }) :=
  ⟨(C7_shoot_cooldown _).1 (by norm_num),
   (C7_shoot_cooldown _).2 (by norm_num)⟩

/-! ### C8: length clamp -/

/-- C8: for a nonnegative bound the clamped vector is never longer than the
bound; a vector already within the bound is returned unchanged; and the zero
vector is returned unchanged for every bound. -/
theorem C8_clamp_length (v : Vec) (m : ℝ) :
    (0 ≤ m → vec_len (vec_clamp_length v m) ≤ m) ∧
    (vec_len v ≤ m → vec_clamp_length v m = v) ∧
    vec_clamp_length { x := 0, y := 0 } m = { x := 0, y := 0 } := by
  refine ⟨?_, ?_, ?_⟩
  · intro hm
    unfold vec_clamp_length
    split_ifs with h
    · rcases h with ⟨_, h2⟩
      rw [vec_len_scale, abs_of_nonneg (div_nonneg hm h2.le),
          div_mul_cancel₀ _ (ne_of_gt h2)]
    · rcases not_and_or.mp h with h1 | h2
      · exact not_lt.mp h1
      · have h0 := vec_len_nonneg v
        have : vec_len v = 0 := le_antisymm (not_lt.mp h2) h0
        linarith
  · intro hle
    unfold vec_clamp_length
    rw [if_neg]
    rintro ⟨h1, _⟩
    exact absurd hle (not_le.mpr h1)
  · unfold vec_clamp_length
    rw [if_neg]
    rintro ⟨_, h2⟩
    rw [show vec_len { x := 0, y := 0 } = 0 by
      unfold vec_len
      norm_num] at h2
    exact lt_irrefl 0 h2

/-- Witness for C8_clamp_length: the zero vector under bound 0, and the
vector (3, 4) of length 5 under bound 25. -/
theorem C8_clamp_length_witness :
    vec_len (vec_clamp_length { x := 0, y := 0 } 0) ≤ 0 ∧
    vec_clamp_length { x := 3, y := 4 } 25 = { x := 3, y := 4 } := by
  constructor
  · exact (C8_clamp_length { x := 0, y := 0 } 0).1 le_rfl
  · refine (C8_clamp_length { x := 3, y := 4 } 25).2.1 ?_
    unfold vec_len
    rw [Real.sqrt_le_iff]
    norm_num

/-! ### C1: player-asteroid collision pass -/

/-- C1: while the invulnerability timer is positive the player-asteroid pass
changes nothing (no overlap decrements lives); when the timer is at or below
0 and some asteroid overlaps the player, the pass decrements lives by
exactly 1, recenters the player, and resets the invulnerability timer to
2.0 seconds, losing at most this one life in the frame. -/
theorem C1_player_asteroid_pass (p : Player) (lives : ℤ) (go : Bool)
    (asts : List Asteroid) :
    (0 < p.invuln → playerPass p lives go asts = (p, lives, go)) ∧
    (p.invuln ≤ 0 →
      (∃ a ∈ asts, circle_collision p.pos SHIP_RADIUS a.pos a.radius) →
      (playerPass p lives go asts).2.1 = lives - 1 ∧
      (playerPass p lives go asts).1.pos
          = { x := SCREEN_WIDTH / 2, y := SCREEN_HEIGHT / 2 } ∧
      (playerPass p lives go asts).1.invuln = 2) := by
  constructor
  · intro h
    unfold playerPass
    rw [if_neg (not_le.mpr h)]
  · intro h hov
    unfold playerPass
    rw [if_pos h, playerLoop_hit p lives go asts hov]
    exact ⟨rfl, rfl, rfl⟩

/-- Witness for C1_player_asteroid_pass: an invulnerable player overlapping
an asteroid loses nothing; a vulnerable player overlapping a Small asteroid
at the same point loses one life and is recentered with timer 2. -/
theorem C1_player_asteroid_pass_witness :
    playerPass
      { pos := { x := 0, y := 0 }, vel := { x := 0, y := 0 }, angle := 0,
        cooldown := 0, invuln := 1, alive := true } 3 false
      [{ pos := { x := 0, y := 0 }, size := 1, radius := 14,
         vel := { x := 0, y := 0 } }]
      = ({ pos := { x := 0, y := 0 }, vel := { x := 0, y := 0 }, angle := 0,
           cooldown := 0, invuln := 1, alive := true }, 3, false) ∧
    (playerPass
      { pos := { x := 0, y := 0 }, vel := { x := 0, y := 0 }, angle := 0,
        cooldown := 0, invuln := 0, alive := true } 3 false
      [{ pos := { x := 0, y := 0 }, size := 1, radius := 14,
         vel := { x := 0, y := 0 } }]).2.1 = 2 := by
  constructor
  · exact (C1_player_asteroid_pass _ 3 false _).1 (by norm_num)
  · have h := ((C1_player_asteroid_pass
      { pos := { x := 0, y := 0 }, vel := { x := 0, y := 0 }, angle := 0,
        cooldown := 0, invuln := 0, alive := true } 3 false
      [{ pos := { x := 0, y := 0 }, size := 1, radius := 14,
         vel := { x := 0, y := 0 } }]).2 le_rfl
      ⟨_, List.mem_singleton_self _, by norm_num [circle_collision, SHIP_RADIUS]⟩).1
    rw [h]
    norm_num

/-! ### C2: bullet-asteroid hit resolution -/

/-- C2: when some bullet overlaps the asteroid under consideration, the
collision step awards exactly 10 * size points, zeroes the life of the first
overlapping bullet (marking it for removal), does not keep the parent, and
pushes exactly two children at the parent position with size - 1 when
size > 1 and no children when size is at most 1 (Small). -/
theorem C2_asteroid_hit (o : Oracle) (st : BAState) (a : Asteroid)
    (bs2 : List Bullet) (h : zeroFirstHit a st.bullets = some bs2) :
    (processAsteroid o st a).score = st.score + 10 * a.size ∧
    (processAsteroid o st a).remaining = st.remaining ∧
    (processAsteroid o st a).bullets = bs2 ∧
    (∃ pre b post, st.bullets = pre ++ b :: post ∧
      circle_collision b.pos 2 a.pos a.radius ∧
      bs2 = pre ++ { b with life := 0 } :: post) ∧
    (1 < a.size →
      ∃ c1 c2, (processAsteroid o st a).newAsts = st.newAsts ++ [c1, c2] ∧
        c1.pos = a.pos ∧ c1.size = a.size - 1 ∧
        c2.pos = a.pos ∧ c2.size = a.size - 1) ∧
    (a.size ≤ 1 → (processAsteroid o st a).newAsts = st.newAsts) := by
  unfold processAsteroid
  rw [h]
  rcases zeroFirstHit_eq_some a st.bullets bs2 h with
    ⟨pre, b, post, he, hcb, _, he2⟩
  refine ⟨rfl, rfl, rfl, ⟨pre, b, post, he, hcb, he2⟩, ?_, ?_⟩
  · intro hs
    rw [if_pos hs]
    exact ⟨_, _, rfl, rfl, rfl, rfl, rfl⟩
  · intro hs
    rw [if_neg (not_lt.mpr hs)]
    simp

/-- Witness for C2_asteroid_hit: a bullet at the center of a Medium asteroid
destroys it for 20 points and two Small children appear at its position. -/
theorem C2_asteroid_hit_witness :
    (processAsteroid constOracle
      { bullets := [{ pos := { x := 0, y := 0 }, vel := { x := 0, y := 0 },
                      life := 1.2 }],
        newAsts := [], remaining := [], score := 0, k := 0 }
      { pos := { x := 0, y := 0 }, size := 2, radius := 26,
        vel := { x := 0, y := 0 } }).score = 20 ∧
    ∃ c1 c2, (processAsteroid constOracle
      { bullets := [{ pos := { x := 0, y := 0 }, vel := { x := 0, y := 0 },
                      life := 1.2 }],
        newAsts := [], remaining := [], score := 0, k := 0 }
      { pos := { x := 0, y := 0 }, size := 2, radius := 26,
        vel := { x := 0, y := 0 } }).newAsts = [c1, c2] ∧
      c1.size = 1 ∧ c2.size = 1 := by
  have h := C2_asteroid_hit constOracle
    { bullets := [{ pos := { x := 0, y := 0 }, vel := { x := 0, y := 0 },
                    life := 1.2 }],
      newAsts := [], remaining := [], score := 0, k := 0 }
    { pos := { x := 0, y := 0 }, size := 2, radius := 26,
      vel := { x := 0, y := 0 } }
    [{ pos := { x := 0, y := 0 }, vel := { x := 0, y := 0 }, life := 0 }]
    (by norm_num [zeroFirstHit, circle_collision])
  refine ⟨by rw [h.1]; norm_num, ?_⟩
  rcases h.2.2.2.2.1 (by norm_num) with ⟨c1, c2, hne, _, hs1, _, hs2⟩
  exact ⟨c1, c2, by rw [hne]; simp, by rw [hs1]; norm_num,
    by rw [hs2]; norm_num⟩

/-! ### C10: one bullet can destroy several asteroids in one pass -/

/-- C10: a bullet whose life was zeroed by a hit earlier in the same pass is
still tested against later asteroids; in the concrete state gMultiHit one
bullet overlaps two Small asteroids and the pass destroys both, awarding
10 points for each (score 20), leaving no asteroid and removing the bullet. -/
theorem C10_multi_hit :
    (Game.handle_collisions constOracle gMultiHit).score = 20 ∧
    (Game.handle_collisions constOracle gMultiHit).asteroids = [] ∧
    (Game.handle_collisions constOracle gMultiHit).bullets = [] ∧
    (Game.handle_collisions constOracle gMultiHit).lives = 3 := by
  norm_num [Game.handle_collisions, gMultiHit, processAsteroid, zeroFirstHit,
    circle_collision, playerPass, playerLoop, removeDead, constOracle]

/-! ### C9: player visibility at game over -/

/-- C9 counterexample: in the game-over state gOver (reached with 2 seconds
of invulnerability left, as every fatal hit leaves), the draw condition of
Game::draw still shows the player, contradicting the claim that visibility
is suppressed at game over regardless of the remaining invulnerability. -/
theorem C9_visibility_counterexample :
    gOver.game_over = true ∧ PlayerDrawn gOver :=
  ⟨rfl, Or.inr (by norm_num [gOver])⟩

/-- C9 (amended): at game over the player triangle is suppressed exactly
when the invulnerability timer is not positive; while it is positive the
player is still drawn despite the game being over. -/
theorem C9_visibility_amended (g : Game) (hgo : g.game_over = true) :
    (g.player.invuln ≤ 0 → ¬ PlayerDrawn g) ∧
    (0 < g.player.invuln → PlayerDrawn g) := by
  constructor
  · intro hi hd
    unfold PlayerDrawn at hd
    rcases hd with h | h
    · rw [hgo] at h
      simp at h
    · exact absurd h (not_lt.mpr hi)
  · intro h
    exact Or.inr h

/-- Witness for C9_visibility_amended: the game-over state with timer 0 is
suppressed; the game-over state with timer 2 is drawn. -/
theorem C9_visibility_amended_witness :
    ¬ PlayerDrawn gOverIv0 ∧ PlayerDrawn gOver :=
  ⟨(C9_visibility_amended gOverIv0 rfl).1 le_rfl,
   (C9_visibility_amended gOver rfl).2 (by norm_num [gOver])⟩

/-! ### C3: wave completion -/

/-- C3: whenever the physics step leaves no asteroid, the update increments
the wave number by exactly 1, resets the invulnerability window to 2.0
seconds, and (when it succeeds) spawns 3 + newWaveNumber Large asteroids,
each farther than 200 units from the current player position. -/
theorem C3_wave_completion (o : Oracle) (fuel : ℕ) (inp : Input) (dt : ℝ)
    (g g' : Game) (hgo : g.game_over = false)
    (hempty : (Game.stepPhys o inp dt g).asteroids = [])
    (hup : Game.update o fuel inp dt g = some g') :
    g'.wave = g.wave + 1 ∧ g'.player.invuln = 2 ∧
    g'.asteroids.length = (3 + (g.wave + 1)).toNat ∧
    (0 ≤ g.wave → (g'.asteroids.length : ℤ) = 3 + (g.wave + 1)) ∧
    ∀ a ∈ g'.asteroids, a.size = 3 ∧
      200 < vec_len (vec_sub a.pos g'.player.pos) := by
  unfold Game.update at hup
  rw [hgo] at hup
  simp only [Bool.false_eq_true, if_false] at hup
  rw [hempty] at hup
  dsimp only at hup
  rcases Option.map_eq_some'.mp hup with ⟨r, hspawn, hfr⟩
  subst hfr
  unfold spawn_wave at hspawn
  rcases spawnList_props o _ fuel _ _ _ _ hspawn with ⟨hlen, hmem⟩
  have hw : (Game.stepPhys o inp dt g).wave = g.wave := stepPhys_wave o inp dt g
  refine ⟨?_, rfl, ?_, ?_, ?_⟩
  · show (Game.stepPhys o inp dt g).wave + 1 = g.wave + 1
    rw [hw]
  · show r.1.length = _
    rw [hlen, hw]
  · intro hw0
    show (r.1.length : ℤ) = _
    rw [hlen, hw]
    rw [Int.toNat_of_nonneg (by linarith)]
  · intro a ha
    rcases hmem a ha with ⟨hs, _, hf⟩
    exact ⟨hs, far_of_not_collision _ _ hf⟩

/-- The physics step is the identity on the asteroid-free resting state. -/
theorem stepPhys_gEmptyAst :
    Game.stepPhys constOracle inpNone 1 gEmptyAst = gEmptyAst := by
  unfold Game.stepPhys Game.movePhase
  rw [Player.update_resting inpNone 1 gEmptyAst.player rfl rfl rfl rfl
    (by norm_num [gEmptyAst, Player.initP, SCREEN_WIDTH])
    (by norm_num [gEmptyAst, Player.initP, SCREEN_WIDTH])
    (by norm_num [gEmptyAst, Player.initP, SCREEN_HEIGHT])
    (by norm_num [gEmptyAst, Player.initP, SCREEN_HEIGHT])]
  norm_num [gEmptyAst, Player.initP, inpNone, Game.handle_collisions,
    playerPass, playerLoop, removeDead]

/-- Updating the asteroid-free resting state spawns wave 2: five Large
asteroids from the constant oracle. -/
theorem update_gEmptyAst :
    Game.update constOracle 1 inpNone 1 gEmptyAst =
      some { player := { Player.initP with invuln := 2 }, bullets := [],
             asteroids :=
               List.replicate 5 (mkAsteroid { x := 0, y := 0 } 3 0 0),
             score := 0, lives := 3, wave := 2, game_over := false,
             rngK := 10 } := by
  have hfar : ¬ circle_collision { x := 0, y := 0 } 80 gEmptyAst.player.pos 120 := by
    norm_num [circle_collision, gEmptyAst, Player.initP, SCREEN_WIDTH,
      SCREEN_HEIGHT]
  unfold Game.update
  rw [show gEmptyAst.game_over = false from rfl]
  simp only [Bool.false_eq_true, if_false]
  rw [stepPhys_gEmptyAst]
  show Option.map _ (spawn_wave constOracle (gEmptyAst.wave + 1)
    gEmptyAst.player.pos 1 gEmptyAst.rngK) = _
  unfold spawn_wave
  rw [show ((3 : ℤ) + (gEmptyAst.wave + 1)).toNat = 5 from rfl,
      show (1 : ℕ) = 0 + 1 from rfl,
      spawnList_const_eval gEmptyAst.player.pos 0 hfar 5 gEmptyAst.rngK]
  rfl

/-- Witness for C3_wave_completion at the concrete asteroid-free state: the
update succeeds, the wave becomes 2, the invulnerability window is 2, and
five asteroids are spawned. -/
theorem C3_wave_completion_witness :
    ∃ g', Game.update constOracle 1 inpNone 1 gEmptyAst = some g' ∧
      g'.wave = 2 ∧ g'.player.invuln = 2 ∧ (g'.asteroids.length : ℤ) = 5 := by
  have h := C3_wave_completion constOracle 1 inpNone 1 gEmptyAst _ rfl
    (by rw [stepPhys_gEmptyAst]; rfl) update_gEmptyAst
  refine ⟨_, update_gEmptyAst, ?_, h.2.1, ?_⟩
  · rw [h.1]
    norm_num [gEmptyAst]
  · rw [h.2.2.2.1 (by norm_num [gEmptyAst])]
    norm_num [gEmptyAst]

/-! ### C4: game-over freeze and restart -/

/-- C4: at game over, an update without the restart trigger returns the
state unchanged (no entity, score, lives or wave change); with the restart
trigger the update performs the full reset, and every successful reset has
score 0, lives 3, wave 1, no bullets, and a fresh first wave of 4 Large
asteroids all farther than 200 units from the recentered player. -/
theorem C4_game_over_freeze (o : Oracle) (fuel : ℕ) (inp : Input) (dt : ℝ)
    (g : Game) (hgo : g.game_over = true) :
    (inp.restart = false → Game.update o fuel inp dt g = some g) ∧
    (inp.restart = true →
      Game.update o fuel inp dt g = Game.resetG o fuel g ∧
      ∀ g', Game.resetG o fuel g = some g' →
        g'.score = 0 ∧ g'.lives = 3 ∧ g'.wave = 1 ∧ g'.bullets = [] ∧
        g'.game_over = false ∧ g'.asteroids.length = 4 ∧
        ∀ a ∈ g'.asteroids, a.size = 3 ∧
          200 < vec_len (vec_sub a.pos g'.player.pos)) := by
  constructor
  · intro hrs
    unfold Game.update
    rw [hgo, hrs]
    simp
  · intro hrs
    refine ⟨?_, ?_⟩
    · unfold Game.update
      rw [hgo, hrs]
      simp
    · intro g' hreset
      unfold Game.resetG at hreset
      rcases Option.map_eq_some'.mp hreset with ⟨r, hspawn, hfr⟩
      subst hfr
      unfold spawn_wave at hspawn
      rcases spawnList_props o _ fuel _ _ _ _ hspawn with ⟨hlen, hmem⟩
      refine ⟨rfl, rfl, rfl, rfl, rfl, ?_, ?_⟩
      · show r.1.length = 4
        rw [hlen]
        rfl
      · intro a ha
        rcases hmem a ha with ⟨hs, _, hf⟩
        exact ⟨hs, far_of_not_collision _ _ hf⟩

/-- Resetting from the concrete game-over state spawns four Large asteroids
from the constant oracle. -/
theorem resetG_gOver_eval :
    Game.resetG constOracle 1 gOver =
      some { player := Player.resetP gOver.player, bullets := [],
             asteroids :=
               List.replicate 4 (mkAsteroid { x := 0, y := 0 } 3 0 0),
             score := 0, lives := 3, wave := 1, game_over := false,
             rngK := 8 } := by
  have hfar : ¬ circle_collision { x := 0, y := 0 } 80
      (Player.resetP gOver.player).pos 120 := by
    norm_num [circle_collision, Player.resetP, SCREEN_WIDTH, SCREEN_HEIGHT]
  unfold Game.resetG
  unfold spawn_wave
  rw [show ((3 : ℤ) + 1).toNat = 4 from rfl,
      show (1 : ℕ) = 0 + 1 from rfl,
      spawnList_const_eval (Player.resetP gOver.player).pos 0 hfar 4 gOver.rngK]
  rfl

/-- Witness for C4_game_over_freeze at the concrete game-over state: frozen
without restart, and restarting yields score 0, lives 3, wave 1 and a fresh
4-asteroid wave. -/
theorem C4_game_over_freeze_witness :
    Game.update constOracle 1 inpNone 1 gOver = some gOver ∧
    ∃ g', Game.resetG constOracle 1 gOver = some g' ∧ g'.score = 0 ∧
      g'.lives = 3 ∧ g'.wave = 1 ∧ g'.bullets = [] ∧
      g'.asteroids.length = 4 := by
  refine ⟨(C4_game_over_freeze constOracle 1 inpNone 1 gOver rfl).1 rfl, ?_⟩
  have h := ((C4_game_over_freeze constOracle 1 inpRestart 1 gOver rfl).2
    rfl).2 _ resetG_gOver_eval
  exact ⟨_, resetG_gOver_eval, h.1, h.2.1, h.2.2.1, h.2.2.2.1, h.2.2.2.2.2.1⟩

/-! ### C6: monotonicity of wave, score and lives -/

/-- One update step preserves the invariant and, away from the game-over
restart edge, is monotone in wave and score and loses at most one life,
raising the game-over flag when lives hit 0. -/
theorem update_inv (o : Oracle) (fuel : ℕ) (inp : Input) (dt : ℝ)
    (g g' : Game) (hinv : Inv g)
    (hup : Game.update o fuel inp dt g = some g') :
    Inv g' ∧
    ((g.game_over = true ∧ inp.restart = true) ∨
      (g.wave ≤ g'.wave ∧ g.score ≤ g'.score ∧ g'.lives ≤ g.lives ∧
        (g'.lives = 0 → g'.game_over = true))) := by
  unfold Game.update at hup
  by_cases hgo : g.game_over = true
  · rw [if_pos hgo] at hup
    by_cases hrs : inp.restart = true
    · rw [if_pos hrs] at hup
      unfold Game.resetG at hup
      rcases Option.map_eq_some'.mp hup with ⟨r, hspawn, hfr⟩
      subst hfr
      unfold spawn_wave at hspawn
      rcases spawnList_props o _ fuel _ _ _ _ hspawn with ⟨_, hmem⟩
      refine ⟨⟨?_, ?_, ?_⟩, Or.inl ⟨hgo, hrs⟩⟩
      · show (0 : ℤ) ≤ LIVES_START
        norm_num [LIVES_START]
      · intro h
        norm_num [LIVES_START] at h
      · intro a ha
        rw [(hmem a ha).1]
        norm_num
    · rw [if_neg hrs] at hup
      injection hup with hup
      subst hup
      exact ⟨hinv, Or.inr ⟨le_rfl, le_rfl, le_rfl, hinv.2.1⟩⟩
  · rw [if_neg hgo] at hup
    have hps := stepPhys_props o inp dt g hinv.2.2
    have hlive1 : 1 ≤ g.lives := by
      rcases hinv with ⟨h0, hz, _⟩
      by_contra hlt
      push_neg at hlt
      exact hgo (hz (by omega))
    have hcore : 0 ≤ (Game.stepPhys o inp dt g).lives ∧
        (Game.stepPhys o inp dt g).lives ≤ g.lives ∧
        ((Game.stepPhys o inp dt g).lives = 0 →
          (Game.stepPhys o inp dt g).game_over = true) := by
      rcases hps.2.2.2 with ⟨hl, hgo2⟩ | ⟨hl, hgo2⟩
      · rw [hl, hgo2]
        refine ⟨hinv.1, le_rfl, ?_⟩
        intro h
        exact absurd (hinv.2.1 h) hgo
      · rw [hl, hgo2]
        refine ⟨by omega, by omega, ?_⟩
        intro h
        rw [if_pos (by omega)]
    cases hast : (Game.stepPhys o inp dt g).asteroids with
    | nil =>
      rw [hast] at hup
      dsimp only at hup
      rcases Option.map_eq_some'.mp hup with ⟨r, hspawn, hfr⟩
      subst hfr
      unfold spawn_wave at hspawn
      rcases spawnList_props o _ fuel _ _ _ _ hspawn with ⟨_, hmem⟩
      refine ⟨⟨hcore.1, fun h => hcore.2.2 h, ?_⟩,
        Or.inr ⟨?_, hps.2.1, hcore.2.1, fun h => hcore.2.2 h⟩⟩
      · intro a ha
        rw [(hmem a ha).1]
        norm_num
      · show g.wave ≤ (Game.stepPhys o inp dt g).wave + 1
        rw [hps.1]
        omega
    | cons a rest =>
      rw [hast] at hup
      dsimp only at hup
      injection hup with hup
      subst hup
      refine ⟨⟨hcore.1, hcore.2.2, hps.2.2.1⟩,
        Or.inr ⟨?_, hps.2.1, hcore.2.1, hcore.2.2⟩⟩
      rw [hps.1]

/-- Every reachable state satisfies the invariant. -/
theorem reachable_inv (o : Oracle) (g : Game) (hr : Reachable o g) :
    Inv g := by
  induction hr with
  | init fuel g h =>
    unfold Game.init at h
    rcases Option.map_eq_some'.mp h with ⟨r, hspawn, hfr⟩
    subst hfr
    unfold spawn_wave at hspawn
    rcases spawnList_props o _ fuel _ _ _ _ hspawn with ⟨_, hmem⟩
    refine ⟨?_, ?_, ?_⟩
    · show (0 : ℤ) ≤ LIVES_START
      norm_num [LIVES_START]
    · intro h
      norm_num [LIVES_START] at h
    · intro a ha
      rw [(hmem a ha).1]
      norm_num
  | step g g' fuel inp dt hr hdt h ih =>
    exact (update_inv o fuel inp dt g g' ih h).1

/-- The trace oracle satisfies all distribution range constraints. -/
theorem oC6_valid : oC6.Valid := by
  intro k
  have hpi := Real.pi_pos
  unfold oC6
  dsimp only
  refine ⟨?_, ?_, ?_, ?_, ?_, ?_, ?_, ?_⟩ <;> split_ifs <;>
    norm_num [SCREEN_WIDTH, SCREEN_HEIGHT] <;> linarith

/-- The centered trace player under no input: only the timers decay. -/
theorem pC6_update_none (dt cd iv : ℝ) :
    (pC6 cd iv).update inpNone dt =
      pC6 (if cd > 0 then cd - dt else cd) (if iv > 0 then iv - dt else iv) := by
  rw [Player.update_resting inpNone dt (pC6 cd iv) rfl rfl rfl rfl
    (by norm_num [pC6]) (by norm_num [pC6, SCREEN_WIDTH])
    (by norm_num [pC6]) (by norm_num [pC6, SCREEN_HEIGHT])]
  rfl

/-- Frame 1 physics: asteroid 1 reaches the player and costs a life. -/
theorem frame1C6_step : Game.stepPhys oC6 inpNone 5 gC6_0 = gC6_1 := by
  unfold Game.stepPhys Game.movePhase
  rw [show gC6_0.player = pC6 0 0 from rfl, pC6_update_none 5 0 0]
  norm_num [gC6_0, gC6_1, inpNone, pC6, aC6, Game.handle_collisions,
    processAsteroid, zeroFirstHit, removeDead, playerPass, playerLoop,
    Asteroid.update, vec_add, vec_scale, wrap_position, circle_collision,
    SHIP_RADIUS, SCREEN_WIDTH, SCREEN_HEIGHT, Player.resetP]

/-- Frame 2 physics: asteroid 2 reaches the player and costs a life. -/
theorem frame2C6_step : Game.stepPhys oC6 inpNone 5 gC6_1 = gC6_2 := by
  unfold Game.stepPhys Game.movePhase
  rw [show gC6_1.player = pC6 0 2 from rfl, pC6_update_none 5 0 2]
  norm_num [gC6_1, gC6_2, inpNone, pC6, aC6, Game.handle_collisions,
    processAsteroid, zeroFirstHit, removeDead, playerPass, playerLoop,
    Asteroid.update, vec_add, vec_scale, wrap_position, circle_collision,
    SHIP_RADIUS, SCREEN_WIDTH, SCREEN_HEIGHT, Player.resetP]

/-- Frame 3 physics: asteroid 3 reaches the player, lives hit 0 and the
game-over flag is raised. -/
theorem frame3C6_step : Game.stepPhys oC6 inpNone 5 gC6_2 = gC6_3 := by
  unfold Game.stepPhys Game.movePhase
  rw [show gC6_2.player = pC6 0 2 from rfl, pC6_update_none 5 0 2]
  norm_num [gC6_2, gC6_3, inpNone, pC6, aC6, Game.handle_collisions,
    processAsteroid, zeroFirstHit, removeDead, playerPass, playerLoop,
    Asteroid.update, vec_add, vec_scale, wrap_position, circle_collision,
    SHIP_RADIUS, SCREEN_WIDTH, SCREEN_HEIGHT, Player.resetP]

/-- Frame 1 as a full update step. -/
theorem frame1C6_eval : Game.update oC6 1 inpNone 5 gC6_0 = some gC6_1 := by
  unfold Game.update
  rw [show gC6_0.game_over = false from rfl]
  simp only [Bool.false_eq_true, if_false]
  rw [frame1C6_step]
  rfl

/-- Frame 2 as a full update step. -/
theorem frame2C6_eval : Game.update oC6 1 inpNone 5 gC6_1 = some gC6_2 := by
  unfold Game.update
  rw [show gC6_1.game_over = false from rfl]
  simp only [Bool.false_eq_true, if_false]
  rw [frame2C6_step]
  rfl

/-- Frame 3 as a full update step. -/
theorem frame3C6_eval : Game.update oC6 1 inpNone 5 gC6_2 = some gC6_3 := by
  unfold Game.update
  rw [show gC6_2.game_over = false from rfl]
  simp only [Bool.false_eq_true, if_false]
  rw [frame3C6_step]
  rfl

/-- The Game constructor under the trace oracle produces the initial trace
state. -/
theorem initC6_eval : Game.init oC6 1 = some gC6_0 := by
  unfold Game.init spawn_wave
  rw [show ((3 : ℤ) + 1).toNat = 4 from rfl]
  norm_num [spawnList, pickPos, oC6, circle_collision, Player.initP,
    SCREEN_WIDTH, SCREEN_HEIGHT, mkAsteroid, random_asteroid_velocity,
    vec_from_angle, vec_scale, ASTEROID_RADII, ASTEROID_BASE_SPEED,
    gC6_0, aC6, pC6, LIVES_START, Real.cos_pi_div_two, Real.sin_pi_div_two,
    Real.cos_pi, Real.sin_pi]

/-- Pressing restart at the game-over trace state resets the simulation:
lives jump from 0 back to 3. -/
theorem frame4C6_eval : Game.update oC6 1 inpRestart 1 gC6_3 = some gC6_4 := by
  unfold Game.update
  rw [show gC6_3.game_over = true from rfl,
      show inpRestart.restart = true from rfl]
  simp only [if_true]
  unfold Game.resetG spawn_wave
  rw [show ((3 : ℤ) + 1).toNat = 4 from rfl]
  norm_num [spawnList, pickPos, oC6, circle_collision, Player.resetP,
    SCREEN_WIDTH, SCREEN_HEIGHT, mkAsteroid, random_asteroid_velocity,
    vec_from_angle, vec_scale, ASTEROID_RADII, ASTEROID_BASE_SPEED,
    gC6_3, gC6_4, aC6, pC6, LIVES_START, List.replicate, Real.cos_zero,
    Real.sin_zero]

/-- C6 (amended): across consecutive reachable states the wave number never
decreases, the score never decreases, the lives count never increases and a
decrement reaching 0 raises the game-over flag, EXCEPT on the game-over
restart transition, which resets lives to 3 (an increase), score to 0 and
wave to 1; in all cases lives stay at or above 0. -/
theorem C6_monotonicity_amended (o : Oracle) (fuel : ℕ) (inp : Input)
    (dt : ℝ) (g g' : Game) (hr : Reachable o g) (_hdt : 0 ≤ dt)
    (hup : Game.update o fuel inp dt g = some g') :
    0 ≤ g'.lives ∧
    ((g.game_over = true ∧ inp.restart = true) ∨
      (g.wave ≤ g'.wave ∧ g.score ≤ g'.score ∧ g'.lives ≤ g.lives ∧
        (g'.lives = 0 → g'.game_over = true))) := by
  have h := update_inv o fuel inp dt g g' (reachable_inv o g hr) hup
  exact ⟨h.1.1, h.2⟩

/-- C6 counterexample: with the valid oracle oC6, the game-over state
gC6_3 is reachable (constructor plus three dt = 5 frames, each losing one
life) and the restart step raises lives from 0 back to 3 (and with them
score and wave are also reset), so the lives count does increase across a
pair of consecutive reachable states. -/
theorem C6_monotonicity_counterexample :
    ∃ (o : Oracle) (g g' : Game) (fuel : ℕ) (inp : Input) (dt : ℝ),
      o.Valid ∧ Reachable o g ∧ 0 ≤ dt ∧
      Game.update o fuel inp dt g = some g' ∧ g.lives < g'.lives := by
  refine ⟨oC6, gC6_3, gC6_4, 1, inpRestart, 1, oC6_valid, ?_,
    by norm_num, frame4C6_eval, by norm_num [gC6_3, gC6_4]⟩
  exact Reachable.step gC6_2 gC6_3 1 inpNone 5
    (Reachable.step gC6_1 gC6_2 1 inpNone 5
      (Reachable.step gC6_0 gC6_1 1 inpNone 5
        (Reachable.init 1 gC6_0 initC6_eval)
        (by norm_num) frame1C6_eval)
      (by norm_num) frame2C6_eval)
    (by norm_num) frame3C6_eval

/-- Witness for C6_monotonicity_amended at the first trace frame: a
non-restart step from the reachable initial state keeps the wave and score
and loses one life, staying at or above 0. -/
theorem C6_monotonicity_amended_witness :
    0 ≤ gC6_1.lives ∧ gC6_0.wave ≤ gC6_1.wave ∧
    gC6_0.score ≤ gC6_1.score ∧ gC6_1.lives ≤ gC6_0.lives := by
  have h := C6_monotonicity_amended oC6 1 inpNone 5 gC6_0 gC6_1
    (Reachable.init 1 gC6_0 initC6_eval) (by norm_num) frame1C6_eval
  rcases h.2 with ⟨hgo, _⟩ | hmono
  · exact absurd hgo (by norm_num [gC6_0])
  · exact ⟨h.1, hmono.1, hmono.2.1, hmono.2.2.1⟩

end

end ZayDroids
